import Mathlib

/-!
Verification development for the cloudscraper repository
(src/cloudscraper.py, src/lib/cloudtrax.py).

The Python sources are shallowly embedded: fallible Python expressions
(indexing, division, dict lookup, float parsing) become `Except PyError`
computations; Python 2 integer division becomes `Int.fdiv` (floor
division); float arithmetic is modelled over `ℚ`; the parsed HTML
document handed to `distill_html` is modelled as the list of tables
(with their identifying attribute) that the parser would find, in
document order.
-/

set_option linter.unusedVariables false

/-- Exceptions the embedded Python code can raise.  The names follow the
Python exception classes the source would raise at each site. -/
inductive PyError where
  | zeroDivision
  | attributeError
  | indexError
  | keyError
  | valueError
  deriving DecidableEq, Repr

/-- Models Python list indexing `xs[i]`, including negative indices
counting from the end; out-of-range access raises `IndexError`. -/
def pyGet {α : Type} (xs : List α) (i : Int) : Except PyError α :=
  let j : Int := if i < 0 then i + xs.length else i
  if h : 0 ≤ j ∧ j.toNat < xs.length then
    .ok (xs.get ⟨j.toNat, h.2⟩)
  else
    .error .indexError

/-- Models Python 2 integer division `a / b` on ints: floor division,
raising `ZeroDivisionError` on a zero divisor. -/
def pyIntDiv (a b : Int) : Except PyError Int :=
  if b = 0 then .error .zeroDivision else .ok (Int.fdiv a b)

/-- Models Python float division `a / b`, raising `ZeroDivisionError`
on a zero divisor; floats are modelled as rationals. -/
def pyRatDiv (a b : ℚ) : Except PyError ℚ :=
  if b = 0 then .error .zeroDivision else .ok (a / b)

deriving instance DecidableEq for Except

/-- One RGB pixel as PIL delivers it: a triple of channel values. -/
structure Pixel where
  r : Nat
  g : Nat
  b : Nat
  deriving DecidableEq, Repr

/-- Models the Python `"%x"` format for one channel value: lowercase
hexadecimal with no zero padding. -/
def hexFmt (n : Nat) : String :=
  (Nat.toDigits 16 n).asString

/-- Models `"%x%x%x" % (pixel[0], pixel[1], pixel[2])` from the pixel
classification loops in `scrape_checkin_data` and `get_checkin_data`. -/
def pixelColour (p : Pixel) : String :=
  hexFmt p.r ++ hexFmt p.g ++ hexFmt p.b

/-- Number of pixels of the given row whose formatted colour equals `c`.
This is the final value `colour_counter[c]` holds for each of the three
pre-seeded colour keys after the counting loop: each key starts at 0 and
is incremented once per matching column. -/
def countColour (row : List Pixel) (c : String) : Nat :=
  (row.filter (fun p => pixelColour p = c)).length

/-- Embeds `percentage` from src/lib/cloudtrax.py:
`(float(value) * 100) / max_value`. -/
def percentage (value : Nat) (max_value : Int) : Except PyError ℚ :=
  pyRatDiv ((value : ℚ) * 100) (max_value : ℚ)

/-- Embeds the decoding core of `CloudTrax.get_checkin_data` from
src/lib/cloudtrax.py, as a function of row 1 of the decoded checkin
image (the row the source reads; its length is the image width).  The
loop counts every column, then each of the three colour counts is
converted through `percentage` with denominator `width - 2`. -/
def get_checkin_data (row : List Pixel) : Except PyError (ℚ × ℚ × ℚ) := do
  let w : Int := (row.length : Int)
  let time_as_gw ← percentage (countColour row "1faa5f") (w - 2)
  let time_as_relay ← percentage (countColour row "4fdd8f") (w - 2)
  let time_offline ← percentage (countColour row "cccccc") (w - 2)
  return (time_as_gw, time_as_relay, time_offline)

/-- Embeds the decoding core of `Node.scrape_checkin_data` from
src/cloudscraper.py, as a function of row 1 of the decoded checkin
image.  The counts are the same as in the library version (the extra
`pixel_colour != '000'` test never affects the three pre-seeded keys),
but the conversion `count / (width - 2) * 100` uses Python 2 integer
division. -/
def scrape_checkin_data (row : List Pixel) : Except PyError (Int × Int × Int) := do
  let w : Int := (row.length : Int)
  let q_gw ← pyIntDiv (countColour row "1faa5f") (w - 2)
  let q_relay ← pyIntDiv (countColour row "4fdd8f") (w - 2)
  let q_offline ← pyIntDiv (countColour row "cccccc") (w - 2)
  return (q_gw * 100, q_relay * 100, q_offline * 100)

/-- One table cell (`td`): the list of text fragments found inside it,
as `cell.findAll(text=True)` returns them. -/
structure HtmlCell where
  texts : List String
  deriving DecidableEq, Repr

/-- One table row (`tr`): the ordered list of its cells. -/
structure HtmlRow where
  cells : List HtmlCell
  deriving DecidableEq, Repr

/-- One HTML table: the ordered list of its rows. -/
structure HtmlTable where
  rows : List HtmlRow
  deriving DecidableEq, Repr

/-- The parsed HTML document, abstracted to what `distill_html` can
reach: the tables `BeautifulSoup` would find, paired with the
identifying attribute value each one matches, in document order. -/
def HtmlDoc : Type := List (String × HtmlTable)

/-- Models `BeautifulSoup(content).find('table', identifier)`: the
first table whose attributes match the identifier, if any. -/
def findTable (doc : HtmlDoc) (identifier : String) : Option HtmlTable :=
  (List.find? (fun t => t.fst = identifier) doc).map Prod.snd

/-- Embeds `distill_html` (identical in src/cloudscraper.py and
src/lib/cloudtrax.py).  For the `table` element it locates the table,
collects each row as the list of its cells' text-fragment lists, and
keeps only rows with at least one cell; when no table matches, the
source calls `.findAll` on `None` and raises `AttributeError` (the
failure the specification names `MalformedDocument`).  For any other
element kind the initial empty accumulator is returned unchanged. -/
def distill_html (doc : HtmlDoc) (element identifier : String) :
    Except PyError (List (List (List String))) :=
  if element = "table" then
    match findTable doc identifier with
    | none => .error .attributeError
    | some tbl =>
        .ok (((tbl.rows.map (fun row => row.cells.map HtmlCell.texts)).filter
          (fun raw_values => raw_values.length > 0)))
  else
    .ok []

/-- Embeds the `NODE_STATUS` dict of src/cloudscraper.py, as the lookup
function the dict provides. -/
def NODE_STATUS (key : String) : String :=
  if key = "gw_down" then "1"
  else if key = "relay_down" then "2"
  else if key = "gw_up" then "3"
  else if key = "relay_up" then "4"
  else if key = "spare_gw_down" then "5"
  else if key = "spare_down" then "6"
  else if key = "spare_gw_up" then "7"
  else if key = "spare_up" then "8"
  else ""

/-- The `if/elif` classification chain at the top of `Node.__init__`
(src/cloudscraper.py lines 111-134), comparing the status token against
the `NODE_STATUS` codes in source order.  The chain has no `else`, so
an unmatched token leaves `node_type` and `node_status` unassigned,
modelled as `none`. -/
def classifyStatus (code : String) : Option (String × String) :=
  if code = NODE_STATUS "gw_up" then some ("gateway", "up")
  else if code = NODE_STATUS "gw_down" then some ("gateway", "down")
  else if code = NODE_STATUS "relay_up" then some ("relay", "down")
  else if code = NODE_STATUS "relay_down" then some ("relay", "down")
  else if code = NODE_STATUS "spare_gw_up" then some ("spare", "up")
  else if code = NODE_STATUS "spare_gw_down" then some ("spare", "down")
  else if code = NODE_STATUS "spare_up" then some ("spare", "up")
  else if code = NODE_STATUS "spare_down" then some ("spare", "down")
  else none

/-- The attributes a `Node` object carries after `__init__` finishes
(src/cloudscraper.py).  `node_type` and `node_status` are `Option`
because the classification chain can leave them unassigned. -/
structure Node where
  node_type : Option String
  node_status : Option String
  name : String
  comment : String
  mac : String
  ip : String
  chan_24 : String
  chan_58 : String
  users_24 : String
  download_24 : String
  upload_24 : String
  uptime : String
  fw_version : String
  fw_name : String
  load : String
  memfree : String
  time_since_checkin : String
  gateway_name : String
  gateway_ip : String
  hops : String
  latency : String
  time_as_gw : Int
  time_as_relay : Int
  time_offline : Int
  deriving DecidableEq, Repr

/-- Embeds `Node.__init__` from src/cloudscraper.py.  The checkin fetch
`session.get(checkin_url, mac)` followed by image decoding is modelled
by `fetch`, which yields row 1 of the checkin image for a mac address;
the field accesses happen in source order, each one able to raise
`IndexError`. -/
def node_init (fetch : String → List Pixel) (values : List (List String)) :
    Except PyError Node := do
  let v0 ← pyGet values 0
  let code ← pyGet v0 0
  let ts := classifyStatus code
  let v1 ← pyGet values 1
  let name ← pyGet v1 0
  let comment ← pyGet v1 (-1)
  let v2 ← pyGet values 2
  let mac ← pyGet v2 0
  let ip ← pyGet v2 1
  let v3 ← pyGet values 3
  let chan_24 ← pyGet v3 0
  let chan_58 ← pyGet v3 1
  let v4 ← pyGet values 4
  let users_24 ← pyGet v4 0
  let v5 ← pyGet values 5
  let download_24 ← pyGet v5 0
  let upload_24 ← pyGet v5 1
  let v6 ← pyGet values 6
  let uptime ← pyGet v6 0
  let v7 ← pyGet values 7
  let fw_version ← pyGet v7 0
  let fw_name ← pyGet v7 1
  let v8 ← pyGet values 8
  let load ← pyGet v8 0
  let memfree ← pyGet v8 1
  let v9 ← pyGet values 9
  let time_since_checkin ← pyGet v9 0
  let v10 ← pyGet values 10
  let gateway_name ← pyGet v10 0
  let gateway_ip ← pyGet v10 1
  let v11 ← pyGet values 11
  let hops ← pyGet v11 0
  let v12 ← pyGet values 12
  let latency ← pyGet v12 0
  let (time_as_gw, time_as_relay, time_offline) ← scrape_checkin_data (fetch mac)
  return { node_type := ts.map Prod.fst
           node_status := ts.map Prod.snd
           name := name
           comment := comment
           mac := mac
           ip := ip
           chan_24 := chan_24
           chan_58 := chan_58
           users_24 := users_24
           download_24 := download_24
           upload_24 := upload_24
           uptime := uptime
           fw_version := fw_version
           fw_name := fw_name
           load := load
           memfree := memfree
           time_since_checkin := time_since_checkin
           gateway_name := gateway_name
           gateway_ip := gateway_ip
           hops := hops
           latency := latency
           time_as_gw := time_as_gw
           time_as_relay := time_as_relay
           time_offline := time_offline }

/-- Embeds the distill-and-decode body of
`CloudTrax.refresh_network_status` (src/cloudscraper.py, status 200
branch): distill the fetched page with the `mytable` identifier and
construct one `Node` per distilled row. -/
def refresh_network_status (fetch : String → List Pixel) (doc : HtmlDoc) :
    Except PyError (List Node) := do
  let rows ← distill_html doc "table" "mytable"
  rows.mapM (node_init fetch)

/-- Models Python `text.replace(',', '')`: every comma is removed (the
replacement is empty and the pattern is a single character, so the
replacement equals dropping all comma characters). -/
def stripCommas (s : String) : String :=
  String.mk (s.data.filter (fun c => c ≠ ','))

/-- Value of a decimal digit string, most significant digit first. -/
def digitsVal (l : List Char) : Nat :=
  l.foldl (fun n c => n * 10 + (c.toNat - 48)) 0

/-- Models Python `float(text)` for the non-negative integer numerals
the scraped usage fields hold (after comma stripping); any other text
raises `ValueError`.  Floats are modelled as rationals. -/
def pyFloat (s : String) : Except PyError ℚ :=
  if s.data ≠ [] ∧ s.data.all (fun c => c.isDigit) then
    .ok ((digitsVal s.data : Nat) : ℚ)
  else
    .error .valueError

/-- Models the `'%.2f'` rendering used by `User.get_dl_usage` and
`User.get_ul_usage`: the argument is rounded to the nearest multiple of
1/100 (ties upward) and printed with exactly two fraction digits.  The
usage values in scope are non-negative. -/
def formatF2 (q : ℚ) : String :=
  let n : Int := ⌊q * 100 + 1 / 2⌋
  let ip : Int := n / 100
  let fp : Nat := (n % 100).toNat
  toString ip ++ "." ++ (if fp < 10 then "0" ++ toString fp else toString fp)

/-- The `self.values` dict a `User` object carries after `__init__`
(src/cloudscraper.py lines 243-255), one field per dict key. -/
structure User where
  name : String
  mac : String
  node_name : String
  node_mac : String
  rssi : String
  rate : String
  MCS : String
  kb_down : String
  kb_up : String
  blocked : String
  deriving DecidableEq, Repr

/-- Embeds `User.__init__` from src/cloudscraper.py: the dict literal
evaluates its values in source order, each `values[i][j]` able to raise
`IndexError`, and the two usage fields are comma-stripped before being
stored. -/
def user_init (values : List (List String)) : Except PyError User := do
  let v0 ← pyGet values 0
  let name ← pyGet v0 0
  let mac ← pyGet v0 (-1)
  let v1 ← pyGet values 1
  let node_name ← pyGet v1 0
  let node_mac ← pyGet v1 1
  let v3 ← pyGet values 3
  let rssi ← pyGet v3 0
  let v4 ← pyGet values 4
  let rate ← pyGet v4 0
  let mcs ← pyGet v4 1
  let v5 ← pyGet values 5
  let kb_down_raw ← pyGet v5 0
  let v6 ← pyGet values 6
  let kb_up_raw ← pyGet v6 0
  let v8 ← pyGet values 8
  let blocked ← pyGet v8 0
  return { name := name
           mac := mac
           node_name := node_name
           node_mac := node_mac
           rssi := rssi
           rate := rate
           MCS := mcs
           kb_down := stripCommas kb_down_raw
           kb_up := stripCommas kb_up_raw
           blocked := blocked }

/-- Embeds `User.get_type` from src/cloudscraper.py: always the literal
string `user`. -/
def user_get_type (u : User) : String := "user"

/-- Embeds `User.get_dl_usage`: `'%.2f' % (float(kb_down) / 1000)`. -/
def get_dl_usage (u : User) : Except PyError String := do
  let x ← pyFloat u.kb_down
  return formatF2 (x / 1000)

/-- Embeds `User.get_ul_usage`: `'%.2f' % (float(kb_up) / 1000)`. -/
def get_ul_usage (u : User) : Except PyError String := do
  let x ← pyFloat u.kb_up
  return formatF2 (x / 1000)

/-- One record as `draw_table` sees it through duck typing: its
`get_type()` string and its `get_table_row()` cells. -/
structure Entity where
  entity_kind : String
  table_row : List String
  deriving DecidableEq, Repr

/-- The `header` dict literal inside `draw_table` of src/cloudscraper.py
(gateway, relay, spare and user entries), as the lookup it is used
for. -/
def draw_table_header (entity_type : String) : Option (List String) :=
  if entity_type = "gateway" then
    some ["Name\n(Firmware)", "Users", "DL MB\nUL MB", "Up\n(Down)", "IP Address"]
  else if entity_type = "relay" then
    some ["Name\n(Firmware)", "Users", "DL MB\nUL MB", "Gateway", "Up\n(Down)",
      "Latency\n(Hops)"]
  else if entity_type = "spare" then
    some ["Name\n(Firmware)", "Users", "DL MB\nUL MB", "Up\n(Down)", "IP Address"]
  else if entity_type = "user" then
    some ["Name\n(mac)", "Last seen on", "Blocked", "MB Down", "MB Up"]
  else none

/-- The `header` dict literal inside `draw_table` of
src/lib/cloudtrax.py: only gateway, relay and spare entries. -/
def lib_draw_table_header (entity_type : String) : Option (List String) :=
  if entity_type = "gateway" then
    some ["Name\n(mac)", "Users", "DL MB\nUL MB", "Up\n(Down)", "IP Address\n(Firmware)"]
  else if entity_type = "relay" then
    some ["Name\n(mac)", "Users", "DL MB\nUL MB", "Gateway\n(Firmware)", "Up\n(Down)",
      "Latency\n(Hops)"]
  else if entity_type = "spare" then
    some ["Name\n(mac)", "Users", "DL MB\nUL MB", "Up\n(Down)", "IP Address\n(Firmware)"]
  else none

/-- Common body of both `draw_table` versions: `header[entity_type]` is
looked up first (`KeyError` when absent, before any entity is touched),
then each entity whose `get_type()` equals the selector contributes its
`get_table_row()`.  The texttable rendering is abstracted to the header
together with the added rows, in order. -/
def draw_table_core (header : String → Option (List String))
    (entity_type : String) (entities : List Entity) :
    Except PyError (List String × List (List String)) :=
  match header entity_type with
  | none => .error .keyError
  | some h =>
      .ok (h, (entities.filter (fun e => e.entity_kind = entity_type)).map
        Entity.table_row)

/-- Embeds `draw_table` from src/cloudscraper.py. -/
def draw_table (entity_type : String) (entities : List Entity) :
    Except PyError (List String × List (List String)) :=
  draw_table_core draw_table_header entity_type entities

/-- Embeds `draw_table` from src/lib/cloudtrax.py. -/
def lib_draw_table (entity_type : String) (entities : List Entity) :
    Except PyError (List String × List (List String)) :=
  draw_table_core lib_draw_table_header entity_type entities

/-- Number of row-1 pixels carrying one of the three classified colours
(gateway, relay, offline). -/
def classifiedCount (row : List Pixel) : Nat :=
  (row.filter (fun p => pixelColour p = "1faa5f" ∨ pixelColour p = "4fdd8f" ∨
    pixelColour p = "cccccc")).length

theorem except_bind_ok {ε α β : Type} (x : Except ε α) (f : α → Except ε β) (b : β)
    (h : x >>= f = .ok b) : ∃ a, x = .ok a ∧ f a = .ok b := by
  cases x with
  | ok a => exact ⟨a, rfl, h⟩
  | error e => simp [Bind.bind, Except.bind] at h

theorem count_three_eq_classified (row : List Pixel) :
    countColour row "1faa5f" + countColour row "4fdd8f" + countColour row "cccccc" =
      classifiedCount row := by
  induction row with
  | nil => rfl
  | cons p l ih =>
    simp only [countColour, classifiedCount, List.filter_cons] at *
    by_cases h1 : pixelColour p = "1faa5f" <;>
      by_cases h2 : pixelColour p = "4fdd8f" <;>
        by_cases h3 : pixelColour p = "cccccc" <;>
          simp_all <;> omega

theorem get_checkin_data_ok (row : List Pixel)
    (h : ((row.length : Int) - 2 : ℚ) ≠ 0) :
    get_checkin_data row = .ok
      (((countColour row "1faa5f" : ℚ) * 100) / (((row.length : Int) : ℚ) - 2),
       ((countColour row "4fdd8f" : ℚ) * 100) / (((row.length : Int) : ℚ) - 2),
       ((countColour row "cccccc" : ℚ) * 100) / (((row.length : Int) : ℚ) - 2)) := by
  rw [get_checkin_data]
  unfold percentage pyRatDiv
  push_cast at h ⊢
  simp [h]
  rfl

theorem classify_unknown_none (code : String)
    (h : code ∉ ["1", "2", "3", "4", "5", "6", "7", "8"]) :
    classifyStatus code = none := by
  simp only [List.mem_cons, List.mem_singleton, not_or] at h
  obtain ⟨h1, h2, h3, h4, h5, h6, h7, h8⟩ := h
  rw [classifyStatus]
  simp only [NODE_STATUS]
  norm_num
  simp_all

theorem node_init_ok_status (fetch : String → List Pixel) (values : List (List String))
    (node : Node) (hinit : node_init fetch values = .ok node) :
    ∃ v0 code, pyGet values 0 = .ok v0 ∧ pyGet v0 0 = .ok code ∧
      node.node_type = (classifyStatus code).map Prod.fst ∧
      node.node_status = (classifyStatus code).map Prod.snd := by
  rw [node_init] at hinit
  obtain ⟨v0, h0, hinit⟩ := except_bind_ok _ _ _ hinit
  obtain ⟨code, h1, hinit⟩ := except_bind_ok _ _ _ hinit
  refine ⟨v0, code, h0, h1, ?_⟩
  obtain ⟨v1, _, hinit⟩ := except_bind_ok _ _ _ hinit
  obtain ⟨name, _, hinit⟩ := except_bind_ok _ _ _ hinit
  obtain ⟨comment, _, hinit⟩ := except_bind_ok _ _ _ hinit
  obtain ⟨v2, _, hinit⟩ := except_bind_ok _ _ _ hinit
  obtain ⟨mac, _, hinit⟩ := except_bind_ok _ _ _ hinit
  obtain ⟨ip, _, hinit⟩ := except_bind_ok _ _ _ hinit
  obtain ⟨v3, _, hinit⟩ := except_bind_ok _ _ _ hinit
  obtain ⟨c24, _, hinit⟩ := except_bind_ok _ _ _ hinit
  obtain ⟨c58, _, hinit⟩ := except_bind_ok _ _ _ hinit
  obtain ⟨v4, _, hinit⟩ := except_bind_ok _ _ _ hinit
  obtain ⟨u24, _, hinit⟩ := except_bind_ok _ _ _ hinit
  obtain ⟨v5, _, hinit⟩ := except_bind_ok _ _ _ hinit
  obtain ⟨dl, _, hinit⟩ := except_bind_ok _ _ _ hinit
  obtain ⟨ul, _, hinit⟩ := except_bind_ok _ _ _ hinit
  obtain ⟨v6, _, hinit⟩ := except_bind_ok _ _ _ hinit
  obtain ⟨upt, _, hinit⟩ := except_bind_ok _ _ _ hinit
  obtain ⟨v7, _, hinit⟩ := except_bind_ok _ _ _ hinit
  obtain ⟨fwv, _, hinit⟩ := except_bind_ok _ _ _ hinit
  obtain ⟨fwn, _, hinit⟩ := except_bind_ok _ _ _ hinit
  obtain ⟨v8, _, hinit⟩ := except_bind_ok _ _ _ hinit
  obtain ⟨ld, _, hinit⟩ := except_bind_ok _ _ _ hinit
  obtain ⟨mem, _, hinit⟩ := except_bind_ok _ _ _ hinit
  obtain ⟨v9, _, hinit⟩ := except_bind_ok _ _ _ hinit
  obtain ⟨tsc, _, hinit⟩ := except_bind_ok _ _ _ hinit
  obtain ⟨v10, _, hinit⟩ := except_bind_ok _ _ _ hinit
  obtain ⟨gwn, _, hinit⟩ := except_bind_ok _ _ _ hinit
  obtain ⟨gwip, _, hinit⟩ := except_bind_ok _ _ _ hinit
  obtain ⟨v11, _, hinit⟩ := except_bind_ok _ _ _ hinit
  obtain ⟨hps, _, hinit⟩ := except_bind_ok _ _ _ hinit
  obtain ⟨v12, _, hinit⟩ := except_bind_ok _ _ _ hinit
  obtain ⟨lat, _, hinit⟩ := except_bind_ok _ _ _ hinit
  obtain ⟨trip, _, hinit⟩ := except_bind_ok _ _ _ hinit
  obtain ⟨tg, trl, tof⟩ := trip
  simp only [pure, Except.pure] at hinit
  injection hinit with hrec
  subst hrec
  exact ⟨rfl, rfl⟩

theorem user_init_ok_kb (values : List (List String)) (u : User)
    (h : user_init values = .ok u) :
    ∃ s5 s6, u.kb_down = stripCommas s5 ∧ u.kb_up = stripCommas s6 := by
  rw [user_init] at h
  obtain ⟨v0, _, h⟩ := except_bind_ok _ _ _ h
  obtain ⟨name, _, h⟩ := except_bind_ok _ _ _ h
  obtain ⟨mac, _, h⟩ := except_bind_ok _ _ _ h
  obtain ⟨v1, _, h⟩ := except_bind_ok _ _ _ h
  obtain ⟨nn, _, h⟩ := except_bind_ok _ _ _ h
  obtain ⟨nm, _, h⟩ := except_bind_ok _ _ _ h
  obtain ⟨v3, _, h⟩ := except_bind_ok _ _ _ h
  obtain ⟨rssi, _, h⟩ := except_bind_ok _ _ _ h
  obtain ⟨v4, _, h⟩ := except_bind_ok _ _ _ h
  obtain ⟨rate, _, h⟩ := except_bind_ok _ _ _ h
  obtain ⟨mcs, _, h⟩ := except_bind_ok _ _ _ h
  obtain ⟨v5, _, h⟩ := except_bind_ok _ _ _ h
  obtain ⟨kbd, _, h⟩ := except_bind_ok _ _ _ h
  obtain ⟨v6, _, h⟩ := except_bind_ok _ _ _ h
  obtain ⟨kbu, _, h⟩ := except_bind_ok _ _ _ h
  obtain ⟨v8, _, h⟩ := except_bind_ok _ _ _ h
  obtain ⟨blocked, _, h⟩ := except_bind_ok _ _ _ h
  simp only [pure, Except.pure] at h
  injection h with h
  subst h
  exact ⟨kbd, kbu, rfl, rfl⟩

theorem stripCommas_no_comma (s : String) : ',' ∉ (stripCommas s).data := by
  intro hmem
  rw [stripCommas] at hmem
  have := List.of_mem_filter hmem
  simp at this

/-- Claim C1: the specification says status code `"4"` (the
`NODE_STATUS` key `relay_up`) yields kind `relay` with status `up`; the
classification chain in `Node.__init__` instead assigns status `down`
on that branch.  This theorem evaluates the embedded constructor on a
13-cell row whose status token is `"4"` (with a width-3 checkin image)
and records the divergence. -/
theorem node_code4_relay_down_eval :
    (node_init (fun mac => [⟨0, 0, 0⟩, ⟨31, 170, 95⟩, ⟨0, 0, 0⟩])
      [["4"], ["name1", "comment1"], ["mac1", "ip1"], ["c24", "c58"], ["u24"],
       ["dl", "ul"], ["up"], ["fwv", "fwn"], ["ld", "mem"], ["tchk"],
       ["gwn", "gwip"], ["hps"], ["lat"]]).toOption.map
      (fun n => (n.node_type, n.node_status)) = some (some "relay", some "down") := by
  decide

/-- Claim C2: the specification says each percentage is the exact
real-valued quotient `count / (width - 2) * 100`.  The library decoder
`get_checkin_data` computes exactly that, but `Node.scrape_checkin_data`
in src/cloudscraper.py divides Python 2 ints, flooring the quotient
before multiplying by 100.  On a width-12 image whose row 1 holds 5
gateway-coloured, 5 offline-coloured and 2 black pixels, the exact
quotients are 50 percent, yet the main script computes 0. -/
theorem checkin_percent_floor_division_eval :
    scrape_checkin_data
      [⟨31, 170, 95⟩, ⟨31, 170, 95⟩, ⟨31, 170, 95⟩, ⟨31, 170, 95⟩, ⟨31, 170, 95⟩,
       ⟨204, 204, 204⟩, ⟨204, 204, 204⟩, ⟨204, 204, 204⟩, ⟨204, 204, 204⟩,
       ⟨204, 204, 204⟩, ⟨0, 0, 0⟩, ⟨0, 0, 0⟩] = .ok (0, 0, 0) ∧
    get_checkin_data
      [⟨31, 170, 95⟩, ⟨31, 170, 95⟩, ⟨31, 170, 95⟩, ⟨31, 170, 95⟩, ⟨31, 170, 95⟩,
       ⟨204, 204, 204⟩, ⟨204, 204, 204⟩, ⟨204, 204, 204⟩, ⟨204, 204, 204⟩,
       ⟨204, 204, 204⟩, ⟨0, 0, 0⟩, ⟨0, 0, 0⟩] = .ok (50, 0, 50) := by
  constructor
  · decide
  · have h1 : countColour
        [⟨31, 170, 95⟩, ⟨31, 170, 95⟩, ⟨31, 170, 95⟩, ⟨31, 170, 95⟩, ⟨31, 170, 95⟩,
         ⟨204, 204, 204⟩, ⟨204, 204, 204⟩, ⟨204, 204, 204⟩, ⟨204, 204, 204⟩,
         ⟨204, 204, 204⟩, ⟨0, 0, 0⟩, ⟨0, 0, 0⟩] "1faa5f" = 5 := by decide
    have h2 : countColour
        [⟨31, 170, 95⟩, ⟨31, 170, 95⟩, ⟨31, 170, 95⟩, ⟨31, 170, 95⟩, ⟨31, 170, 95⟩,
         ⟨204, 204, 204⟩, ⟨204, 204, 204⟩, ⟨204, 204, 204⟩, ⟨204, 204, 204⟩,
         ⟨204, 204, 204⟩, ⟨0, 0, 0⟩, ⟨0, 0, 0⟩] "4fdd8f" = 0 := by decide
    have h3 : countColour
        [⟨31, 170, 95⟩, ⟨31, 170, 95⟩, ⟨31, 170, 95⟩, ⟨31, 170, 95⟩, ⟨31, 170, 95⟩,
         ⟨204, 204, 204⟩, ⟨204, 204, 204⟩, ⟨204, 204, 204⟩, ⟨204, 204, 204⟩,
         ⟨204, 204, 204⟩, ⟨0, 0, 0⟩, ⟨0, 0, 0⟩] "cccccc" = 5 := by decide
    simp [get_checkin_data, percentage, pyRatDiv, h1, h2, h3]
    norm_num
    rfl

/-- Claim C3 counterexample: on a 13-cell row whose status token is the
unknown code `"9"`, `Node.__init__` does not fail with any error — it
returns a fully constructed node whose kind and status were simply
never assigned, contradicting the claim that construction fails with
`UnknownStatusCode`. -/
theorem node_unknown_code_constructs_cex :
    (node_init (fun mac => [⟨0, 0, 0⟩, ⟨31, 170, 95⟩, ⟨0, 0, 0⟩])
      [["9"], ["name1", "comment1"], ["mac1", "ip1"], ["c24", "c58"], ["u24"],
       ["dl", "ul"], ["up"], ["fwv", "fwn"], ["ld", "mem"], ["tchk"],
       ["gwn", "gwip"], ["hps"], ["lat"]]).toOption.map
      (fun n => (n.node_type, n.node_status)) = some (none, none) := by
  decide

/-- Claim C3 as amended: for every distilled row whose status token is
outside the closed set of 8 known codes, whenever `Node.__init__`
completes it produces a Node with missing (unassigned) kind and status;
no `UnknownStatusCode` failure exists in the code. -/
theorem node_unknown_code_missing_kind_status (fetch : String → List Pixel)
    (values : List (List String)) (v0 : List String) (code : String) (node : Node)
    (hv0 : pyGet values 0 = .ok v0) (hcode : pyGet v0 0 = .ok code)
    (hunknown : code ∉ ["1", "2", "3", "4", "5", "6", "7", "8"])
    (hinit : node_init fetch values = .ok node) :
    node.node_type = none ∧ node.node_status = none := by
  obtain ⟨w0, c, hw0, hc, ht, hs⟩ := node_init_ok_status fetch values node hinit
  rw [hv0] at hw0
  injection hw0 with hw0
  subst hw0
  rw [hcode] at hc
  injection hc with hc
  subst hc
  rw [classify_unknown_none code hunknown] at ht hs
  exact ⟨ht, hs⟩

/-- Witness for the amended C3 theorem at the concrete unknown code
`"x"`: every hypothesis is discharged by evaluation and the resulting
node has no kind and no status. -/
theorem node_unknown_code_missing_kind_status_witness :
    (pyGet [[("x" : String)], ["name1", "comment1"], ["mac1", "ip1"], ["c24", "c58"],
        ["u24"], ["dl", "ul"], ["up"], ["fwv", "fwn"], ["ld", "mem"], ["tchk"],
        ["gwn", "gwip"], ["hps"], ["lat"]] 0 = .ok ["x"] ∧
      pyGet [("x" : String)] 0 = .ok "x" ∧
      "x" ∉ ["1", "2", "3", "4", "5", "6", "7", "8"] ∧
      node_init (fun mac => [⟨0, 0, 0⟩, ⟨31, 170, 95⟩, ⟨0, 0, 0⟩])
        [["x"], ["name1", "comment1"], ["mac1", "ip1"], ["c24", "c58"], ["u24"],
         ["dl", "ul"], ["up"], ["fwv", "fwn"], ["ld", "mem"], ["tchk"],
         ["gwn", "gwip"], ["hps"], ["lat"]] =
        .ok ⟨none, none, "name1", "comment1", "mac1", "ip1", "c24", "c58", "u24",
          "dl", "ul", "up", "fwv", "fwn", "ld", "mem", "tchk", "gwn", "gwip",
          "hps", "lat", 100, 0, 0⟩) ∧
    (⟨none, none, "name1", "comment1", "mac1", "ip1", "c24", "c58", "u24",
        "dl", "ul", "up", "fwv", "fwn", "ld", "mem", "tchk", "gwn", "gwip",
        "hps", "lat", 100, 0, 0⟩ : Node).node_type = none ∧
      (⟨none, none, "name1", "comment1", "mac1", "ip1", "c24", "c58", "u24",
        "dl", "ul", "up", "fwv", "fwn", "ld", "mem", "tchk", "gwn", "gwip",
        "hps", "lat", 100, 0, 0⟩ : Node).node_status = none :=
  ⟨⟨by decide, by decide, by decide, by decide⟩,
    node_unknown_code_missing_kind_status
      (fun mac => [⟨0, 0, 0⟩, ⟨31, 170, 95⟩, ⟨0, 0, 0⟩])
      [["x"], ["name1", "comment1"], ["mac1", "ip1"], ["c24", "c58"], ["u24"],
       ["dl", "ul"], ["up"], ["fwv", "fwn"], ["ld", "mem"], ["tchk"],
       ["gwn", "gwip"], ["hps"], ["lat"]]
      ["x"] "x" _ (by decide) (by decide) (by decide) (by decide)⟩

/-- Claim C4 counterexample: a decodable width-3 checkin image whose
three row-1 pixels all carry the gateway colour.  The counting loop
includes the two border columns while the denominator is `width - 2`,
so the decoder returns 300 percent and the three percentages do not sum
to at most 100. -/
theorem checkin_sum_exceeds_100_cex :
    get_checkin_data [⟨31, 170, 95⟩, ⟨31, 170, 95⟩, ⟨31, 170, 95⟩] = .ok (300, 0, 0) ∧
    ¬ ((300 : ℚ) + 0 + 0 ≤ 100) := by
  constructor
  · have h1 : countColour [⟨31, 170, 95⟩, ⟨31, 170, 95⟩, ⟨31, 170, 95⟩] "1faa5f" = 3 := by
      decide
    have h2 : countColour [⟨31, 170, 95⟩, ⟨31, 170, 95⟩, ⟨31, 170, 95⟩] "4fdd8f" = 0 := by
      decide
    have h3 : countColour [⟨31, 170, 95⟩, ⟨31, 170, 95⟩, ⟨31, 170, 95⟩] "cccccc" = 0 := by
      decide
    simp [get_checkin_data, percentage, pyRatDiv, h1, h2, h3]
    norm_num
    rfl
  · norm_num

/-- Claim C4 as amended: for every checkin image of width greater than
2 in which at most `width - 2` row-1 pixels carry a classified colour
(in particular whenever the two border pixels are unclassified), the
three returned percentages sum to at most 100, and the sum is strictly
below 100 exactly when fewer than `width - 2` pixels are classified,
i.e. when unclassified colours occupy part of the data width.  Without
that bound the sum can exceed 100, because the counting loop also
counts the two border columns. -/
theorem checkin_sum_le_100_of_classified (row : List Pixel)
    (hw : 2 < row.length)
    (hcl : classifiedCount row ≤ row.length - 2) :
    ∃ g r o, get_checkin_data row = .ok (g, r, o) ∧ g + r + o ≤ 100 ∧
      (g + r + o < 100 ↔ classifiedCount row < row.length - 2) := by
  have h2le : 2 ≤ row.length := hw.le
  have hd : (0 : ℚ) < ((row.length : Int) : ℚ) - 2 := by
    push_cast
    have h : (2 : ℚ) < (row.length : ℚ) := by exact_mod_cast hw
    linarith
  have hsum3 : (countColour row "1faa5f" : ℚ) + countColour row "4fdd8f" +
      countColour row "cccccc" = classifiedCount row := by
    exact_mod_cast count_three_eq_classified row
  have hclQ : (classifiedCount row : ℚ) ≤ (row.length : ℚ) - 2 := by
    have h := (Nat.cast_le (α := ℚ)).mpr hcl
    rwa [Nat.cast_sub h2le] at h
  have hdQ : ((row.length : Int) : ℚ) - 2 = (row.length : ℚ) - 2 := by push_cast; ring
  refine ⟨_, _, _, get_checkin_data_ok row hd.ne', ?_, ?_⟩
  · rw [div_add_div_same, div_add_div_same, div_le_iff₀ hd, hdQ]
    nlinarith [hsum3, hclQ]
  · rw [div_add_div_same, div_add_div_same, div_lt_iff₀ hd, hdQ]
    have hcast : ((row.length : ℚ) - 2) = ((row.length - 2 : ℕ) : ℚ) := by
      rw [Nat.cast_sub h2le]
      norm_num
    have hiff : (classifiedCount row : ℚ) < (row.length : ℚ) - 2 ↔
        classifiedCount row < row.length - 2 := by
      rw [hcast, Nat.cast_lt]
    rw [← hiff]
    constructor
    · intro h
      nlinarith [hsum3]
    · intro h
      nlinarith [hsum3]

/-- Witness for the amended C4 theorem on a width-4 image with black
borders, one gateway pixel and one unclassified grey pixel: one of the
two data pixels is classified, so the hypotheses hold and the strict
inequality side of the conclusion is exercised. -/
theorem checkin_sum_le_100_of_classified_witness :
    (2 < ([⟨0, 0, 0⟩, ⟨31, 170, 95⟩, ⟨1, 2, 3⟩, ⟨0, 0, 0⟩] : List Pixel).length ∧
      classifiedCount [⟨0, 0, 0⟩, ⟨31, 170, 95⟩, ⟨1, 2, 3⟩, ⟨0, 0, 0⟩] ≤
        ([⟨0, 0, 0⟩, ⟨31, 170, 95⟩, ⟨1, 2, 3⟩, ⟨0, 0, 0⟩] : List Pixel).length - 2) ∧
    ∃ g r o,
      get_checkin_data [⟨0, 0, 0⟩, ⟨31, 170, 95⟩, ⟨1, 2, 3⟩, ⟨0, 0, 0⟩] = .ok (g, r, o) ∧
      g + r + o ≤ 100 ∧
      (g + r + o < 100 ↔ classifiedCount [⟨0, 0, 0⟩, ⟨31, 170, 95⟩, ⟨1, 2, 3⟩, ⟨0, 0, 0⟩] <
        ([⟨0, 0, 0⟩, ⟨31, 170, 95⟩, ⟨1, 2, 3⟩, ⟨0, 0, 0⟩] : List Pixel).length - 2) :=
  ⟨⟨by decide, by decide⟩,
    checkin_sum_le_100_of_classified [⟨0, 0, 0⟩, ⟨31, 170, 95⟩, ⟨1, 2, 3⟩, ⟨0, 0, 0⟩]
      (by decide) (by decide)⟩

/-- Claim C5 counterexample: a width-1 checkin image (one grey offline
pixel).  The claim says every width at most 2 fails with
`InvalidCheckinImage`; the decoder instead returns a percentage triple
computed against the negative denominator `1 - 2`, namely
`(0, 0, -100)`. -/
theorem checkin_width1_returns_cex :
    get_checkin_data [⟨204, 204, 204⟩] = .ok (0, 0, -100) := by
  have h1 : countColour [⟨204, 204, 204⟩] "1faa5f" = 0 := by decide
  have h2 : countColour [⟨204, 204, 204⟩] "4fdd8f" = 0 := by decide
  have h3 : countColour [⟨204, 204, 204⟩] "cccccc" = 1 := by decide
  simp [get_checkin_data, percentage, pyRatDiv, h1, h2, h3]
  norm_num
  rfl

/-- Claim C5 as amended: a width-2 checkin image makes the decoder fail
with a division-by-zero error (not `InvalidCheckinImage`, which does
not exist in the code), and a width-0 or width-1 image does not fail at
all — it returns a percentage triple computed against a zero-or-negative
denominator. -/
theorem checkin_small_width_behaviour (row : List Pixel) :
    (row.length = 2 → get_checkin_data row = .error .zeroDivision) ∧
    (row.length ≤ 1 → ∃ t, get_checkin_data row = .ok t) := by
  constructor
  · intro h
    rw [get_checkin_data]
    unfold percentage pyRatDiv
    simp [h]
    rfl
  · intro h
    have hne : ((row.length : Int) - 2 : ℚ) ≠ 0 := by
      interval_cases hl : row.length <;> norm_num
    exact ⟨_, get_checkin_data_ok row hne⟩

/-- Witness for the amended C5 theorem: a concrete width-2 image fails
with the division-by-zero error, and a concrete width-1 image returns a
result. -/
theorem checkin_small_width_behaviour_witness :
    get_checkin_data [⟨0, 0, 0⟩, ⟨0, 0, 0⟩] = .error .zeroDivision ∧
    ∃ t, get_checkin_data [⟨204, 204, 204⟩] = .ok t :=
  ⟨(checkin_small_width_behaviour [⟨0, 0, 0⟩, ⟨0, 0, 0⟩]).1 (by decide),
   (checkin_small_width_behaviour [⟨204, 204, 204⟩]).2 (by decide)⟩

/-- Claim C6: when the requested table selector matches no table,
`distill_html` fails hard (the source invokes `.findAll` on `None`,
raising the error the specification names `MalformedDocument`), and the
failure propagates through `refresh_network_status`, aborting the
current refresh. -/
theorem distill_missing_table_fails (doc : HtmlDoc) (fetch : String → List Pixel)
    (h : findTable doc "mytable" = none) :
    distill_html doc "table" "mytable" = .error .attributeError ∧
    refresh_network_status fetch doc = .error .attributeError := by
  have hd : distill_html doc "table" "mytable" = .error .attributeError := by
    rw [distill_html, if_pos rfl, h]
  refine ⟨hd, ?_⟩
  rw [refresh_network_status, hd]
  rfl

/-- Witness for C6 on the empty document, which contains no table at
all. -/
theorem distill_missing_table_fails_witness :
    (findTable ([] : HtmlDoc) "mytable" = none) ∧
    (distill_html [] "table" "mytable" = .error .attributeError ∧
      refresh_network_status (fun mac => []) [] = .error .attributeError) :=
  ⟨rfl, distill_missing_table_fails [] (fun mac => []) rfl⟩

/-- Claim C7: when the target table is present, the distilled output is
exactly the rows of that table that have at least one cell, in document
order, each row being the ordered list of its per-cell text-fragment
groups; rows with zero cells are dropped. -/
theorem distill_rows_exact (doc : HtmlDoc) (ident : String) (tbl : HtmlTable)
    (h : findTable doc ident = some tbl) :
    distill_html doc "table" ident = .ok
      ((tbl.rows.filter (fun r => r.cells.length > 0)).map
        (fun r => r.cells.map HtmlCell.texts)) := by
  rw [distill_html, if_pos rfl, h]
  dsimp only
  congr 1
  rw [List.filter_map]
  congr 1
  apply List.filter_congr
  intro r _
  simp

/-- Witness for C7: a table with 3 data rows and 1 fully empty row
distills to exactly the 3 data rows. -/
theorem distill_rows_exact_witness :
    (findTable [("mytable",
        (⟨[⟨[⟨["a1"]⟩, ⟨["a2"]⟩]⟩, ⟨[⟨["b1"]⟩]⟩, ⟨[]⟩, ⟨[⟨["c1"]⟩]⟩]⟩ : HtmlTable))]
        "mytable" =
      some (⟨[⟨[⟨["a1"]⟩, ⟨["a2"]⟩]⟩, ⟨[⟨["b1"]⟩]⟩, ⟨[]⟩, ⟨[⟨["c1"]⟩]⟩]⟩ : HtmlTable)) ∧
    distill_html [("mytable",
        (⟨[⟨[⟨["a1"]⟩, ⟨["a2"]⟩]⟩, ⟨[⟨["b1"]⟩]⟩, ⟨[]⟩, ⟨[⟨["c1"]⟩]⟩]⟩ : HtmlTable))]
        "table" "mytable" =
      .ok [[["a1"], ["a2"]], [["b1"]], [["c1"]]] :=
  ⟨rfl, by
    rw [distill_rows_exact
      [("mytable",
        (⟨[⟨[⟨["a1"]⟩, ⟨["a2"]⟩]⟩, ⟨[⟨["b1"]⟩]⟩, ⟨[]⟩, ⟨[⟨["c1"]⟩]⟩]⟩ : HtmlTable))]
      "mytable"
      (⟨[⟨[⟨["a1"]⟩, ⟨["a2"]⟩]⟩, ⟨[⟨["b1"]⟩]⟩, ⟨[]⟩, ⟨[⟨["c1"]⟩]⟩]⟩ : HtmlTable) rfl]
    decide⟩

/-- Claim C9: calling `distill_html` with any element kind other than
`table` returns the empty row sequence with no error, for every content
and identifier — indistinguishable from distilling a present but empty
table, which also returns the empty sequence. -/
theorem distill_non_table_empty (doc doc2 : HtmlDoc) (element ident ident2 : String)
    (hel : element ≠ "table") (hdoc2 : findTable doc2 ident2 = some ⟨[]⟩) :
    distill_html doc element ident = .ok [] ∧
    distill_html doc2 "table" ident2 = .ok [] := by
  constructor
  · rw [distill_html, if_neg hel]
  · rw [distill_html, if_pos rfl, hdoc2]
    rfl

/-- Witness for C9 with the element kind `div` and a document holding an
empty table under the user-page selector. -/
theorem distill_non_table_empty_witness :
    (("div" : String) ≠ "table" ∧
      findTable [("inline sortable", (⟨[]⟩ : HtmlTable))] "inline sortable" =
        some ⟨[]⟩) ∧
    (distill_html [] "div" "mytable" = .ok [] ∧
      distill_html [("inline sortable", (⟨[]⟩ : HtmlTable))] "table" "inline sortable" =
        .ok []) :=
  ⟨⟨by decide, rfl⟩,
    distill_non_table_empty [] [("inline sortable", ⟨[]⟩)] "div" "mytable"
      "inline sortable" (by decide) rfl⟩

/-- Claim C8: for every 9-cell user row the constructor stores the
`kb_down` and `kb_up` texts with every comma removed, `get_dl_usage`
renders `kb_down / 1000` to two-decimal precision (the `'%.2f'` format
applied to the parsed numeric value), and likewise `get_ul_usage`
renders `kb_up / 1000`. -/
theorem user_commas_stripped_mb_down (values : List (List String)) (u : User) (n m : Nat)
    (hinit : user_init values = .ok u)
    (hnum : u.kb_down.data ≠ [] ∧ u.kb_down.data.all (fun c => c.isDigit))
    (hval : digitsVal u.kb_down.data = n)
    (hnum2 : u.kb_up.data ≠ [] ∧ u.kb_up.data.all (fun c => c.isDigit))
    (hval2 : digitsVal u.kb_up.data = m) :
    (',' ∉ u.kb_down.data ∧ ',' ∉ u.kb_up.data) ∧
      get_dl_usage u = .ok (formatF2 ((n : ℚ) / 1000)) ∧
      get_ul_usage u = .ok (formatF2 ((m : ℚ) / 1000)) := by
  obtain ⟨s5, s6, h5, h6⟩ := user_init_ok_kb values u hinit
  refine ⟨⟨by rw [h5]; exact stripCommas_no_comma s5,
           by rw [h6]; exact stripCommas_no_comma s6⟩, ?_, ?_⟩
  · rw [get_dl_usage, pyFloat, if_pos hnum, hval]
    rfl
  · rw [get_ul_usage, pyFloat, if_pos hnum2, hval2]
    rfl

/-- Witness for C8 on a concrete 9-cell row whose download counter is
the text `1,234,567` and whose upload counter is `89`: the stored
values are `1234567` and `89`, comma-free, and the derived megabyte
figures render as `1234.57` and `0.09`. -/
theorem user_commas_stripped_mb_down_witness :
    (user_init [["alice", "aa:bb"], ["node1", "cc:dd"], ["vend"], ["-60"],
        ["54", "7"], ["1,234,567"], ["89"], ["zz"], ["no"]] =
      .ok ⟨"alice", "aa:bb", "node1", "cc:dd", "-60", "54", "7", "1234567", "89", "no"⟩ ∧
      digitsVal ("1234567" : String).data = 1234567 ∧
      digitsVal ("89" : String).data = 89) ∧
    ((',' ∉ (("1234567" : String)).data ∧ ',' ∉ (("89" : String)).data) ∧
      get_dl_usage ⟨"alice", "aa:bb", "node1", "cc:dd", "-60", "54", "7",
        "1234567", "89", "no"⟩ = .ok (formatF2 ((1234567 : ℚ) / 1000)) ∧
      get_ul_usage ⟨"alice", "aa:bb", "node1", "cc:dd", "-60", "54", "7",
        "1234567", "89", "no"⟩ = .ok (formatF2 ((89 : ℚ) / 1000))) ∧
    formatF2 ((1234567 : ℚ) / 1000) = "1234.57" ∧
    formatF2 ((89 : ℚ) / 1000) = "0.09" :=
  ⟨⟨by decide, by decide, by decide⟩,
    user_commas_stripped_mb_down
      [["alice", "aa:bb"], ["node1", "cc:dd"], ["vend"], ["-60"],
       ["54", "7"], ["1,234,567"], ["89"], ["zz"], ["no"]]
      ⟨"alice", "aa:bb", "node1", "cc:dd", "-60", "54", "7", "1234567", "89", "no"⟩
      1234567 89 (by decide) (by decide) (by decide) (by decide) (by decide),
    by norm_num [formatF2]; decide,
    by norm_num [formatF2]; decide⟩

/-- Claim C10: in both `draw_table` versions the header dict is indexed
by the category selector before any record is touched, so a selector
with no header entry fails with `KeyError` for every entity list; the
src/lib/cloudtrax.py header mapping contains only gateway, relay and
spare, so selecting `user` fails there even though `user` is the type
string every User record reports. -/
theorem lib_draw_table_user_keyerror (cat : String) (entities : List Entity) (u : User)
    (hcat : lib_draw_table_header cat = none) :
    lib_draw_table cat entities = .error .keyError ∧
    lib_draw_table_header "user" = none ∧
    user_get_type u = "user" ∧
    (∀ c, lib_draw_table_header c ≠ none → c = "gateway" ∨ c = "relay" ∨ c = "spare") := by
  refine ⟨?_, by decide, rfl, ?_⟩
  · rw [lib_draw_table, draw_table_core, hcat]
  · intro c hc
    rw [lib_draw_table_header] at hc
    split_ifs at hc with h1 h2 h3
    · exact Or.inl h1
    · exact Or.inr (Or.inl h2)
    · exact Or.inr (Or.inr h3)
    · exact absurd rfl hc

/-- Witness for C10: selecting the `user` category in the library
version fails with `KeyError` on a non-empty entity list containing a
user-typed record. -/
theorem lib_draw_table_user_keyerror_witness :
    (lib_draw_table_header "user" = none) ∧
    (lib_draw_table "user" [⟨"user", ["alice", "n", "no", "1.23", "0.09"]⟩] =
        .error .keyError ∧
      lib_draw_table_header "user" = none ∧
      user_get_type ⟨"alice", "aa:bb", "node1", "cc:dd", "-60", "54", "7",
        "1234567", "89", "no"⟩ = "user" ∧
      (∀ c, lib_draw_table_header c ≠ none →
        c = "gateway" ∨ c = "relay" ∨ c = "spare")) :=
  ⟨by decide,
    lib_draw_table_user_keyerror "user" [⟨"user", ["alice", "n", "no", "1.23", "0.09"]⟩]
      ⟨"alice", "aa:bb", "node1", "cc:dd", "-60", "54", "7", "1234567", "89", "no"⟩
      (by decide)⟩
